import Mathlib

/-!
Verification development for the FinSight news-download utility
(`alpaca_news_api.py`).  The repository contains two near-duplicate
implementations of the same module:

* `modules/feature_pipeline/src/alpaca_news_api.py` — embedded below in
  namespace `Alpaca`;
* `src/src/alpaca_news_api.py` — embedded in namespace `AlpacaSrc`.

The HTTP transport is modelled as a function from requests to responses;
the pagination loop of `download_historical_news` is given explicit fuel,
with `none` meaning that the loop has not terminated within the given
fuel.  Python exceptions are modelled with `Except PyError`.
-/

set_option maxRecDepth 8000

/-- A timestamp with second precision, standing in for Python's
`datetime` value (timezone information is not tracked). -/
structure Datetime where
  year : Nat
  month : Nat
  day : Nat
  hour : Nat
  minute : Nat
  second : Nat
deriving DecidableEq, Repr

/-- Zero-padding to two digits, as `strftime` does for `%m`, `%d`, `%H`, `%M`, `%S`. -/
def pad2 (n : Nat) : String :=
  if n < 10 then "0" ++ toString n else toString n

/-- Zero-padding to four digits, as `strftime` does for `%Y`. -/
def pad4 (n : Nat) : String :=
  if n < 10 then "000" ++ toString n
  else if n < 100 then "00" ++ toString n
  else if n < 1000 then "0" ++ toString n
  else toString n

/-- Python's `d.strftime("%Y-%m-%dT%H:%M:%SZ")`. -/
def strftimeSec (d : Datetime) : String :=
  pad4 d.year ++ "-" ++ pad2 d.month ++ "-" ++ pad2 d.day ++ "T" ++
    pad2 d.hour ++ ":" ++ pad2 d.minute ++ ":" ++ pad2 d.second ++ "Z"

/-- Python's `d.strftime("%Y-%m-%d")`. -/
def strftimeDay (d : Datetime) : String :=
  pad4 d.year ++ "-" ++ pad2 d.month ++ "-" ++ pad2 d.day

/-- Python exception values raised by the embedded code. -/
inductive PyError where
  | keyError : String → PyError
  | indexError : PyError
  | attributeError : String → PyError
  | typeError : String → PyError
  | runtimeError : String → PyError
  | valueError : String → PyError
deriving DecidableEq, Repr

/-- Value of a digit character. -/
def digitVal (c : Char) : Option Nat :=
  if c.isDigit then some (c.toNat - 48) else none

/-- Parse two digit characters into a number. -/
def parse2 (a b : Char) : Option Nat := do
  pure ((← digitVal a) * 10 + (← digitVal b))

/-- Parse four digit characters into a number. -/
def parse4 (a b c d : Char) : Option Nat := do
  pure (((← digitVal a) * 10 + (← digitVal b)) * 100 +
        ((← digitVal c) * 10 + (← digitVal d)))

/-- Recognise the timezone suffix accepted after the seconds field:
empty, `Z`, or a `+HH:MM` / `-HH:MM` offset. -/
def isoTzTail : List Char → Bool
  | [] => true
  | ['Z'] => true
  | [s, h1, h2, ':', m1, m2] =>
      (s == '+' || s == '-') && h1.isDigit && h2.isDigit && m1.isDigit && m2.isDigit
  | _ => false

/-- Python's `datetime.fromisoformat` restricted to the shapes this program
meets on the wire: `YYYY-MM-DD`, optionally followed by `THH:MM:SS` and a
timezone suffix (the offset itself is not retained).  Returns `none` where
Python raises `ValueError`. -/
def fromisoformat (s : String) : Option Datetime :=
  match s.toList with
  | [y1, y2, y3, y4, '-', m1, m2, '-', d1, d2] => do
      let y ← parse4 y1 y2 y3 y4
      let mo ← parse2 m1 m2
      let da ← parse2 d1 d2
      if 1 ≤ mo ∧ mo ≤ 12 ∧ 1 ≤ da ∧ da ≤ 31 then
        pure ⟨y, mo, da, 0, 0, 0⟩
      else none
  | y1 :: y2 :: y3 :: y4 :: '-' :: m1 :: m2 :: '-' :: d1 :: d2 :: 'T' ::
      h1 :: h2 :: ':' :: mi1 :: mi2 :: ':' :: s1 :: s2 :: rest => do
      let y ← parse4 y1 y2 y3 y4
      let mo ← parse2 m1 m2
      let da ← parse2 d1 d2
      let h ← parse2 h1 h2
      let mi ← parse2 mi1 mi2
      let sec ← parse2 s1 s2
      if (1 ≤ mo ∧ mo ≤ 12 ∧ 1 ≤ da ∧ da ≤ 31 ∧ h < 24 ∧ mi < 60 ∧ sec < 60) ∧
          isoTzTail rest = true then
        pure ⟨y, mo, da, h, mi, sec⟩
      else none
  | _ => none

/-- One entry of the response body's `news` array.  Both observed field
names for the article time (`updated_at` and `timestamp`) are carried, since
the two implementations read different ones. -/
structure NewsItem where
  headline : String
  summary : String
  content : String
  updated_at : String
  timestamp : String
deriving DecidableEq, Repr

/-- An HTTP response: status code, raw body text (used in error messages),
and the parsed JSON body fields the program reads (`news` array and optional
`next_page_token`). -/
structure Page where
  status : Nat
  text : String
  news : List NewsItem
  next_page_token : Option String
deriving DecidableEq, Repr

/-- A query-parameter value (the Python code passes strings, ints and bools). -/
inductive PValue where
  | s : String → PValue
  | n : Nat → PValue
  | b : Bool → PValue
deriving DecidableEq, Repr

/-- A GET request as the program assembles it: URL, headers, query parameters. -/
structure Request where
  url : String
  headers : List (String × String)
  params : List (String × PValue)
deriving DecidableEq, Repr

/-- A Python runtime value stored in a `News` record's date field: the
modules variant stores the raw wire string, the src variant a parsed
`datetime`. -/
inductive PyVal where
  | str : String → PyVal
  | dt : Datetime → PyVal
deriving DecidableEq, Repr

/-- Whether a runtime value is a parsed date/time value. -/
def PyVal.isDt : PyVal → Bool
  | .str _ => false
  | .dt _ => true

deriving instance DecidableEq for Except

/-- JSON values produced by serialization. -/
inductive JValue where
  | str : String → JValue
  | arr : List JValue → JValue
  | obj : List (String × JValue) → JValue

/-- String escaping as done by `json.dump` for the characters this program
can meet. -/
def jsonEscape (s : String) : String :=
  s.foldl (fun acc c =>
    acc ++ (if c = '"' then "\\\""
      else if c = '\\' then "\\\\"
      else if c = '\n' then "\\n"
      else if c = '\r' then "\\r"
      else if c = '\t' then "\\t"
      else String.singleton c)) ""

/-- A run of space characters. -/
def spaces (n : Nat) : String :=
  String.mk (List.replicate n ' ')

mutual

/-- Serialization as Python's `json.dump(obj, f, indent=indent)` at nesting
depth `level`: each array element and object member on its own line, indented
one extra level, keys separated from values by a colon and a space. -/
def jsonSerialize (indent level : Nat) : JValue → String
  | .str s => "\"" ++ jsonEscape s ++ "\""
  | .arr [] => "[]"
  | .arr (v :: vs) =>
      "[\n" ++ String.intercalate ",\n" (jsonSerializeItems indent (level + 1) (v :: vs)) ++
        "\n" ++ spaces (indent * level) ++ "]"
  | .obj [] => "\x7b\x7d"
  | .obj (kv :: kvs) =>
      "\x7b\n" ++ String.intercalate ",\n" (jsonSerializeMembers indent (level + 1) (kv :: kvs)) ++
        "\n" ++ spaces (indent * level) ++ "\x7d"

/-- Serialize each array element, prefixed by its indentation. -/
def jsonSerializeItems (indent level : Nat) : List JValue → List String
  | [] => []
  | v :: vs =>
      (spaces (indent * level) ++ jsonSerialize indent level v) ::
        jsonSerializeItems indent level vs

/-- Serialize each object member, prefixed by its indentation. -/
def jsonSerializeMembers (indent level : Nat) : List (String × JValue) → List String
  | [] => []
  | (k, v) :: kvs =>
      (spaces (indent * level) ++ "\"" ++ jsonEscape k ++ "\": " ++
        jsonSerialize indent level v) :: jsonSerializeMembers indent level kvs

end

namespace Alpaca

/-- The `News` dataclass of `modules/feature_pipeline/src/alpaca_news_api.py`:
fields `headline`, `summary`, `content`, `date`.  The `date` field holds
whatever runtime value the code assigns (the raw wire string; the declared
`datetime` type is not enforced by Python). -/
structure News where
  headline : String
  summary : String
  content : String
  date : PyVal
deriving DecidableEq, Repr

/-- Python attribute lookup on a `News` object: `none` models `AttributeError`. -/
def News.getAttr (news : News) (a : String) : Option PyVal :=
  match a with
  | "headline" => some (.str news.headline)
  | "summary" => some (.str news.summary)
  | "content" => some (.str news.content)
  | "date" => some news.date
  | _ => none

/-- The request assembled by `fetch_batch_of_news` (lines 40-54): credential
headers, `start`/`end` formatted `%Y-%m-%dT%H:%M:%SZ`, `limit=50`,
`include_content=True`, `sort=ASC`, and `page_token` exactly when a page
token was supplied. -/
def buildRequest (key secret : String) (from_date to_date : Datetime)
    (page_token : Option String) : Request :=
  { url := "https://data.alpaca.markets/v1beta1/news",
    headers := [("Apca-Api-Key-Id", key), ("Apca-Api-Secret-Key", secret)],
    params :=
      [("start", .s (strftimeSec from_date)), ("end", .s (strftimeSec to_date)),
       ("limit", .n 50), ("include_content", .b true), ("sort", .s "ASC")] ++
      match page_token with
      | some t => [("page_token", .s t)]
      | none => [] }

/-- Construction of one `News` object from a response entry (lines 70-77):
`date` receives the entry's `updated_at` string verbatim. -/
def parseItem (n : NewsItem) : News :=
  { headline := n.headline, summary := n.summary, content := n.content,
    date := .str n.updated_at }

/-- The `fetch_batch_of_news` function (lines 25-82): issues the single GET
request through the transport, and on HTTP 200 returns the mapped `news`
array together with the response's `next_page_token`; otherwise raises
`RuntimeError` naming the status code and the response body. -/
def fetch_batch_of_news (transport : Request → Page) (key secret : String)
    (from_date to_date : Datetime) (page_token : Option String) :
    Request × Except PyError (List News × Option String) :=
  let req := buildRequest key secret from_date to_date page_token
  let response := transport req
  if response.status = 200 then
    (req, .ok (response.news.map parseItem, response.next_page_token))
  else
    (req, .error (.runtimeError ("Failed to fetch news: " ++
      toString response.status ++ " - " ++ response.text)))

/-- Attribute access raising `AttributeError` when the attribute is absent. -/
def lookupAttr (news : News) (a : String) : Except PyError PyVal :=
  match news.getAttr a with
  | some v => .ok v
  | none => .error (.attributeError
      ("\x27News\x27 object has no attribute \x27" ++ a ++ "\x27"))

/-- One dictionary of the `news_data` comprehension in `save_news_to_json`
(lines 91-97), with the keys in source order. -/
def newsToDict (news : News) : Except PyError (List (String × PyVal)) := do
  let h ← lookupAttr news "headline"
  let d ← lookupAttr news "date"
  let s ← lookupAttr news "summary"
  let c ← lookupAttr news "content"
  pure [("headline", h), ("date", d), ("summary", s), ("content", c)]

/-- The full `news_data` list comprehension. -/
def buildNewsData : List News → Except PyError (List (List (String × PyVal)))
  | [] => .ok []
  | news :: rest => do
    let d ← newsToDict news
    let ds ← buildNewsData rest
    pure (d :: ds)

/-- Serialization of one runtime value by `json.dump`: a `datetime` object is
not JSON serializable and raises `TypeError`. -/
def dumpPyVal : PyVal → Except PyError JValue
  | .str s => .ok (.str s)
  | .dt _ => .error (.typeError "Object of type datetime is not JSON serializable")

/-- Serialization of one dictionary's values by `json.dump`. -/
def dumpDict : List (String × PyVal) → Except PyError (List (String × JValue))
  | [] => .ok []
  | (k, v) :: rest => do
    let jv ← dumpPyVal v
    let jrest ← dumpDict rest
    pure ((k, jv) :: jrest)

/-- Serialization of the list of dictionaries by `json.dump`. -/
def dumpDicts : List (List (String × PyVal)) →
    Except PyError (List (List (String × JValue)))
  | [] => .ok []
  | d :: rest => do
    let jd ← dumpDict d
    let jrest ← dumpDicts rest
    pure (jd :: jrest)

/-- The JSON entries `save_news_to_json` writes: the `news_data` dictionaries
with their values serialized. -/
def newsEntries (news_list : List News) :
    Except PyError (List (List (String × JValue))) := do
  let data ← buildNewsData news_list
  dumpDicts data

/-- The `save_news_to_json` function (lines 84-101): builds `news_data` and
writes `json.dump(news_data, f, indent=4)`; the result is the file content. -/
def save_news_to_json (news_list : List News) : Except PyError String := do
  let entries ← newsEntries news_list
  pure (jsonSerialize 4 0 (.arr (entries.map .obj)))

/-- Everything observable about one run of `download_historical_news`:
the `page_token` argument of each fetch issued (in order), the file writes
performed as (path, content) pairs, and the returned value or the exception
raised. -/
structure RunOutcome where
  requests : List (Option String)
  writes : List (String × String)
  result : Except PyError (List News × String)
deriving DecidableEq, Repr

/-- The output file path `DATA_DIR / f"news_{from}_{to}.json"` (lines 128-131),
with the configured data directory abstracted as a string. -/
def filePathFor (dataDir : String) (from_date to_date : Datetime) : String :=
  dataDir ++ "/news_" ++ strftimeDay from_date ++ "_" ++ strftimeDay to_date ++ ".json"

/-- The tail of `download_historical_news` after the loop (lines 127-137):
derive the path, save, return the path. -/
def finishRun (dataDir : String) (from_date to_date : Datetime)
    (reqs : List (Option String)) (list_of_news : List News) : RunOutcome :=
  let path := filePathFor dataDir from_date to_date
  match save_news_to_json list_of_news with
  | .error e => ⟨reqs, [], .error e⟩
  | .ok content => ⟨reqs, [(path, content)], .ok (list_of_news, path)⟩

/-- The `while next_page_token is not None` loop (lines 117-125), with fuel:
`none` means the loop has not terminated within `fuel` iterations.  Each
iteration fetches with the current token, extends the accumulator, then
evaluates `batch_of_news[-1].date` — an `IndexError` when the batch is
empty, an attribute lookup on the last element otherwise — and finally
either leaves the loop or continues with the new token. -/
def downloadLoop (transport : Request → Page) (key secret dataDir : String)
    (from_date to_date : Datetime) :
    Nat → List (Option String) → List News → String → Option RunOutcome
  | 0, _, _, _ => none
  | fuel + 1, reqs, acc, tok =>
    match (fetch_batch_of_news transport key secret from_date to_date (some tok)).2 with
    | .error e => some ⟨reqs ++ [some tok], [], .error e⟩
    | .ok (batch, next) =>
      match batch.getLast? with
      | none => some ⟨reqs ++ [some tok], [], .error .indexError⟩
      | some last =>
        match last.getAttr "date" with
        | none => some ⟨reqs ++ [some tok], [], .error (.attributeError
            ("\x27News\x27 object has no attribute \x27date\x27"))⟩
        | some _ =>
          match next with
          | none => some (finishRun dataDir from_date to_date
              (reqs ++ [some tok]) (acc ++ batch))
          | some t2 => downloadLoop transport key secret dataDir from_date to_date
              fuel (reqs ++ [some tok]) (acc ++ batch) t2

/-- The `download_historical_news` function (lines 103-137): first fetch with
no token, then the pagination loop, then save and return the file path. -/
def download_historical_news (transport : Request → Page)
    (key secret dataDir : String) (from_date to_date : Datetime)
    (fuel : Nat) : Option RunOutcome :=
  match (fetch_batch_of_news transport key secret from_date to_date none).2 with
  | .error e => some ⟨[none], [], .error e⟩
  | .ok (list_of_news, next) =>
    match next with
    | none => some (finishRun dataDir from_date to_date [none] list_of_news)
    | some tok => downloadLoop transport key secret dataDir from_date to_date
        fuel [none] list_of_news tok

/-- The page the server produces at step `i` of the cursor chain: page 0 is
fetched with no token, page `i+1` with the token of page `i`. -/
def chainPage (transport : Request → Page) (key secret : String)
    (from_date to_date : Datetime) : Nat → Page
  | 0 => transport (buildRequest key secret from_date to_date none)
  | i + 1 => transport (buildRequest key secret from_date to_date
      (chainPage transport key secret from_date to_date i).next_page_token)

/-- The module-level credential loading (lines 11-15): reading
`os.environ["ALPACA_API_KEY"]` then `os.environ["ALPACA_SECRET_KEY"]`,
re-raising the first `KeyError` with the script's message. -/
def loadCredentials (env : String → Option String) :
    Except PyError (String × String) :=
  match env "ALPACA_API_KEY" with
  | none => .error (.keyError
      "Environment variable \x27ALPACA_API_KEY\x27 not set. Please set it before running the script.")
  | some key =>
    match env "ALPACA_SECRET_KEY" with
    | none => .error (.keyError
        "Environment variable \x27ALPACA_SECRET_KEY\x27 not set. Please set it before running the script.")
    | some secret => .ok (key, secret)

/-- Result of running the whole script: either the import-time configuration
error, or the download's outcome. -/
inductive ScriptResult where
  | configError : PyError → ScriptResult
  | run : RunOutcome → ScriptResult
deriving DecidableEq, Repr

/-- The script `download_news_from_alpaca.py`: module import loads the
credentials (failing before anything else), then `download_historical_news`
runs.  The first component of the pair lists the fetch requests issued. -/
def runScript (env : String → Option String) (transport : Request → Page)
    (dataDir : String) (from_date to_date : Datetime) (fuel : Nat) :
    Option (List (Option String) × ScriptResult) :=
  match loadCredentials env with
  | .error e => some ([], .configError e)
  | .ok (key, secret) =>
    (download_historical_news transport key secret dataDir from_date to_date fuel).map
      (fun o => (o.requests, .run o))

end Alpaca

namespace AlpacaSrc

/-- The `News` dataclass of `src/src/alpaca_news_api.py`: fields `headline`,
`summary`, `content`, `data` — the timestamp field is named `data`, not
`date`. -/
structure News where
  headline : String
  summary : String
  content : String
  data : PyVal
deriving DecidableEq, Repr

/-- Python attribute lookup on this variant's `News` object: `none` models
`AttributeError`; there is no `date` attribute. -/
def News.getAttr (news : News) (a : String) : Option PyVal :=
  match a with
  | "headline" => some (.str news.headline)
  | "summary" => some (.str news.summary)
  | "content" => some (.str news.content)
  | "data" => some news.data
  | _ => none

/-- The request assembled by this variant's `fetch_batch_of_news`
(lines 40-55): its header names use underscores and its content flag is
spelled `including_content`. -/
def buildRequest (key secret : String) (from_date to_date : Datetime)
    (page_token : Option String) : Request :=
  { url := "https://data.alpaca.markets/v1beta1/news",
    headers := [("APCA_API_KEY_ID", key), ("APCA_API_SECRET_KEY", secret)],
    params :=
      [("start", .s (strftimeSec from_date)), ("end", .s (strftimeSec to_date)),
       ("limit", .n 50), ("including_content", .b true), ("sort", .s "ASC")] ++
      match page_token with
      | some t => [("page_token", .s t)]
      | none => [] }

/-- Construction of one `News` object from a response entry (lines 75-80):
the `data` field receives `datetime.fromisoformat(item["timestamp"])`;
an unparsable string raises `ValueError`. -/
def parseItem (item : NewsItem) : Except PyError News :=
  match fromisoformat item.timestamp with
  | some d => .ok ({ headline := item.headline, summary := item.summary,
                     content := item.content, data := .dt d })
  | none => .error (.valueError ("Invalid isoformat string: " ++ item.timestamp))

/-- The `for item in news_json["news"]` loop of this variant. -/
def parseItems : List NewsItem → Except PyError (List News)
  | [] => .ok []
  | item :: rest => do
    let news ← parseItem item
    let rest2 ← parseItems rest
    pure (news :: rest2)

/-- This variant's `fetch_batch_of_news` (lines 25-82): `raise_for_status`
turns a 4xx/5xx response into a `RuntimeError`; a 200 response is parsed;
any other status silently yields an empty list and no token. -/
def fetch_batch_of_news (transport : Request → Page) (key secret : String)
    (from_date to_date : Datetime) (page_token : Option String) :
    Request × Except PyError (List News × Option String) :=
  let req := buildRequest key secret from_date to_date page_token
  let response := transport req
  if 400 ≤ response.status then
    (req, .error (.runtimeError ("Failed to fetch news: " ++ toString response.status)))
  else if response.status = 200 then
    (req, (parseItems response.news).map (fun l => (l, response.next_page_token)))
  else
    (req, .ok ([], none))

/-- Attribute access raising `AttributeError` when the attribute is absent. -/
def lookupAttr (news : News) (a : String) : Except PyError PyVal :=
  match news.getAttr a with
  | some v => .ok v
  | none => .error (.attributeError
      ("\x27News\x27 object has no attribute \x27" ++ a ++ "\x27"))

/-- One dictionary of the `news_data` comprehension in this variant's
`save_news_to_json` (lines 91-97) — it reads `news.date`, which this
variant's `News` does not have. -/
def newsToDict (news : News) : Except PyError (List (String × PyVal)) := do
  let h ← lookupAttr news "headline"
  let d ← lookupAttr news "date"
  let s ← lookupAttr news "summary"
  let c ← lookupAttr news "content"
  pure [("headline", h), ("date", d), ("summary", s), ("content", c)]

/-- The full `news_data` list comprehension. -/
def buildNewsData : List News → Except PyError (List (List (String × PyVal)))
  | [] => .ok []
  | news :: rest => do
    let d ← newsToDict news
    let ds ← buildNewsData rest
    pure (d :: ds)

/-- The JSON entries this variant's `save_news_to_json` would write. -/
def newsEntries (news_list : List News) :
    Except PyError (List (List (String × JValue))) := do
  let data ← buildNewsData news_list
  Alpaca.dumpDicts data

/-- This variant's `save_news_to_json` (lines 84-101). -/
def save_news_to_json (news_list : List News) : Except PyError String := do
  let entries ← newsEntries news_list
  pure (jsonSerialize 4 0 (.arr (entries.map .obj)))

/-- Observable outcome of one run of this variant's
`download_historical_news`. -/
structure RunOutcome where
  requests : List (Option String)
  writes : List (String × String)
  result : Except PyError (List News × String)
deriving DecidableEq, Repr

/-- The tail of this variant's `download_historical_news` after the loop. -/
def finishRun (dataDir : String) (from_date to_date : Datetime)
    (reqs : List (Option String)) (list_of_news : List News) : RunOutcome :=
  let path := Alpaca.filePathFor dataDir from_date to_date
  match save_news_to_json list_of_news with
  | .error e => ⟨reqs, [], .error e⟩
  | .ok content => ⟨reqs, [(path, content)], .ok (list_of_news, path)⟩

/-- This variant's pagination loop (lines 117-125): identical to the other
variant's, but `batch_of_news[-1].date` is an attribute lookup that this
variant's `News` cannot satisfy. -/
def downloadLoop (transport : Request → Page) (key secret dataDir : String)
    (from_date to_date : Datetime) :
    Nat → List (Option String) → List News → String → Option RunOutcome
  | 0, _, _, _ => none
  | fuel + 1, reqs, acc, tok =>
    match (fetch_batch_of_news transport key secret from_date to_date (some tok)).2 with
    | .error e => some ⟨reqs ++ [some tok], [], .error e⟩
    | .ok (batch, next) =>
      match batch.getLast? with
      | none => some ⟨reqs ++ [some tok], [], .error .indexError⟩
      | some last =>
        match last.getAttr "date" with
        | none => some ⟨reqs ++ [some tok], [], .error (.attributeError
            ("\x27News\x27 object has no attribute \x27date\x27"))⟩
        | some _ =>
          match next with
          | none => some (finishRun dataDir from_date to_date
              (reqs ++ [some tok]) (acc ++ batch))
          | some t2 => downloadLoop transport key secret dataDir from_date to_date
              fuel (reqs ++ [some tok]) (acc ++ batch) t2

/-- This variant's `download_historical_news` (lines 103-137). -/
def download_historical_news (transport : Request → Page)
    (key secret dataDir : String) (from_date to_date : Datetime)
    (fuel : Nat) : Option RunOutcome :=
  match (fetch_batch_of_news transport key secret from_date to_date none).2 with
  | .error e => some ⟨[none], [], .error e⟩
  | .ok (list_of_news, next) =>
    match next with
    | none => some (finishRun dataDir from_date to_date [none] list_of_news)
    | some tok => downloadLoop transport key secret dataDir from_date to_date
        fuel [none] list_of_news tok

end AlpacaSrc

/-- Concrete dates used in witnesses. -/
def dFrom : Datetime := ⟨2025, 4, 20, 0, 0, 0⟩

/-- Concrete dates used in witnesses. -/
def dTo : Datetime := ⟨2025, 4, 21, 0, 0, 0⟩

/-- A concrete wire item used in witnesses. -/
def itemW : NewsItem :=
  ⟨"Apple up", "summary text", "full body", "2025-04-20T10:30:00Z", "2025-04-20T10:30:00Z"⟩

/-- A second concrete wire item used in witnesses. -/
def itemW2 : NewsItem :=
  ⟨"Second item", "s2", "c2", "2025-04-20T11:00:00Z", "2025-04-20T11:00:00Z"⟩

/-- Server with two pages: the cursorless request gets a page with token
`t1`, any cursor-carrying request gets a final page without a token. -/
def transport2 : Request → Page := fun req =>
  if req.params.any (fun kv => kv.1 == "page_token") then ⟨200, "", [itemW2], none⟩
  else ⟨200, "", [itemW], some "t1"⟩

/-- Server that answers every request with a non-empty page and a token. -/
def transportTok : Request → Page := fun _ => ⟨200, "", [itemW], some "t"⟩

/-- Server that answers every request with an empty page that still carries
a token. -/
def transportEmptyTok : Request → Page := fun _ => ⟨200, "", [], some "t"⟩

/-- Server returning a single non-empty page with no token. -/
def transportOne : Request → Page := fun _ => ⟨200, "", [itemW], none⟩

/-- Server returning a single empty page with no token. -/
def transportEmpty : Request → Page := fun _ => ⟨200, "", [], none⟩

/-- Server whose second page (any cursor-carrying request) fails with 403. -/
def transportFail2 : Request → Page := fun req =>
  if req.params.any (fun kv => kv.1 == "page_token") then ⟨403, "Forbidden", [], none⟩
  else ⟨200, "", [itemW], some "t1"⟩

/-- Server whose second page is empty (and final). -/
def transportEmptySecond : Request → Page := fun req =>
  if req.params.any (fun kv => kv.1 == "page_token") then ⟨200, "", [], none⟩
  else ⟨200, "", [itemW], some "t1"⟩

/-- A concrete modules-variant record used in witnesses. -/
def newsW : Alpaca.News :=
  ⟨"Apple up", "summary text", "full body", .str "2025-04-20T10:30:00Z"⟩

/-- A concrete src-variant record used in witnesses. -/
def srcNewsW : AlpacaSrc.News :=
  ⟨"Apple up", "summary text", "full body", .dt ⟨2025, 4, 20, 10, 30, 0⟩⟩

/-- The serialized entries for the singleton list `[newsW]`. -/
def entriesW : List (List (String × JValue)) :=
  [[("headline", .str "Apple up"), ("date", .str "2025-04-20T10:30:00Z"),
    ("summary", .str "summary text"), ("content", .str "full body")]]

/-- The file content written for the singleton list `[newsW]`. -/
def savedW : String := jsonSerialize 4 0 (JValue.arr (entriesW.map JValue.obj))

/-- Attribute access `news.date` always succeeds on the modules variant. -/
theorem alpaca_getAttr_date (nw : Alpaca.News) : nw.getAttr "date" = some nw.date := rfl

/-- The modules variant's `news_data` comprehension never raises: every
attribute it reads exists. -/
theorem alpaca_buildNewsData_eq (l : List Alpaca.News) :
    Alpaca.buildNewsData l = .ok (l.map (fun nw =>
      [("headline", PyVal.str nw.headline), ("date", nw.date),
       ("summary", PyVal.str nw.summary), ("content", PyVal.str nw.content)])) := by
  induction l with
  | nil => rfl
  | cons nw rest ih =>
    simp only [Alpaca.buildNewsData, ih, List.map]
    rfl

/-- Computation rule for `Except` bind on a success value. -/
theorem except_bind_ok {ε α β : Type} (a : α) (f : α → Except ε β) :
    (Except.ok a >>= f) = f a := rfl

/-- Computation rule for `Except` bind on an error value. -/
theorem except_bind_error {ε α β : Type} (e : ε) (f : α → Except ε β) :
    ((Except.error e : Except ε α) >>= f) = .error e := rfl

/-- Computation rule for `pure` on `Except`. -/
theorem except_pure_eq {ε α : Type} (a : α) : (pure a : Except ε α) = .ok a := rfl

/-- If every record's date field holds a string, serializing the mapped
dictionaries succeeds. -/
theorem alpaca_dumpDicts_ok (l : List Alpaca.News)
    (h : ∀ nw ∈ l, ∃ s, nw.date = PyVal.str s) :
    ∃ entries, Alpaca.dumpDicts (l.map (fun nw =>
      [("headline", PyVal.str nw.headline), ("date", nw.date),
       ("summary", PyVal.str nw.summary), ("content", PyVal.str nw.content)])) =
      .ok entries := by
  induction l with
  | nil => exact ⟨[], rfl⟩
  | cons nw rest ih =>
    obtain ⟨s0, hs0⟩ := h nw (List.mem_cons_self nw rest)
    obtain ⟨es, hes⟩ := ih (fun x hx => h x (List.mem_cons_of_mem nw hx))
    refine ⟨[("headline", JValue.str nw.headline), ("date", JValue.str s0),
             ("summary", JValue.str nw.summary), ("content", JValue.str nw.content)] :: es, ?_⟩
    simp only [List.map]
    rw [hs0]
    simp only [Alpaca.dumpDicts]
    rw [show Alpaca.dumpDict [("headline", PyVal.str nw.headline), ("date", PyVal.str s0),
      ("summary", PyVal.str nw.summary), ("content", PyVal.str nw.content)] =
      .ok [("headline", JValue.str nw.headline), ("date", JValue.str s0),
        ("summary", JValue.str nw.summary), ("content", JValue.str nw.content)] from rfl]
    rw [except_bind_ok, hes, except_bind_ok, except_pure_eq]

/-- If every record's date field holds a string, the modules variant's
serialization succeeds. -/
theorem alpaca_newsEntries_ok (l : List Alpaca.News)
    (h : ∀ nw ∈ l, ∃ s, nw.date = PyVal.str s) :
    ∃ entries, Alpaca.newsEntries l = .ok entries := by
  obtain ⟨entries, he⟩ := alpaca_dumpDicts_ok l h
  refine ⟨entries, ?_⟩
  unfold Alpaca.newsEntries
  rw [alpaca_buildNewsData_eq, except_bind_ok, he]

/-- If every record's date field holds a string, `save_news_to_json`
succeeds. -/
theorem alpaca_save_ok (l : List Alpaca.News)
    (h : ∀ nw ∈ l, ∃ s, nw.date = PyVal.str s) :
    ∃ c, Alpaca.save_news_to_json l = .ok c := by
  obtain ⟨entries, he⟩ := alpaca_newsEntries_ok l h
  exact ⟨_, by unfold Alpaca.save_news_to_json; rw [he]; rfl⟩

/-- Shape of the serialized entries: one per record, the four keys in source
order, all values strings. -/
theorem alpaca_newsEntries_shape (l : List Alpaca.News)
    (entries : List (List (String × JValue)))
    (h : Alpaca.newsEntries l = .ok entries) :
    entries.length = l.length ∧
    ∀ e ∈ entries, e.map Prod.fst = ["headline", "date", "summary", "content"] ∧
      ∀ kv ∈ e, ∃ s, kv.2 = JValue.str s := by
  unfold Alpaca.newsEntries at h
  rw [alpaca_buildNewsData_eq, except_bind_ok] at h
  induction l generalizing entries with
  | nil =>
    cases h
    simp
  | cons nw rest ih =>
    simp only [List.map] at h
    cases hd : nw.date with
    | dt d =>
      rw [hd] at h
      simp only [Alpaca.dumpDicts] at h
      rw [show Alpaca.dumpDict [("headline", PyVal.str nw.headline), ("date", PyVal.dt d),
        ("summary", PyVal.str nw.summary), ("content", PyVal.str nw.content)] =
        .error (.typeError "Object of type datetime is not JSON serializable") from rfl,
        except_bind_error] at h
      cases h
    | str s0 =>
      rw [hd] at h
      simp only [Alpaca.dumpDicts] at h
      rw [show Alpaca.dumpDict [("headline", PyVal.str nw.headline), ("date", PyVal.str s0),
        ("summary", PyVal.str nw.summary), ("content", PyVal.str nw.content)] =
        .ok [("headline", JValue.str nw.headline), ("date", JValue.str s0),
          ("summary", JValue.str nw.summary), ("content", JValue.str nw.content)] from rfl,
        except_bind_ok] at h
      cases hrest : Alpaca.dumpDicts (rest.map (fun nw =>
        [("headline", PyVal.str nw.headline), ("date", nw.date),
         ("summary", PyVal.str nw.summary), ("content", PyVal.str nw.content)])) with
      | error e =>
        rw [hrest, except_bind_error] at h
        cases h
      | ok es =>
        rw [hrest, except_bind_ok, except_pure_eq] at h
        obtain ⟨h1, h2⟩ := ih es hrest
        cases h
        constructor
        · simp [h1]
        · intro e he
          rcases List.mem_cons.mp he with he | he
          · subst he
            refine ⟨rfl, ?_⟩
            intro kv hkv
            simp only [List.mem_cons] at hkv
            rcases hkv with h | h | h | h | h
            all_goals first
              | (subst h; exact ⟨_, rfl⟩)
              | cases h
          · exact h2 e he

/-- C5: for every accumulated record list that is successfully persisted, the
output file content is the indent-4 pretty-printed serialization of a JSON
array with exactly one object per record, each object carrying exactly the
four fields headline, date, summary, content, in that fixed order, all
string-valued. -/
theorem C5_saved_file_shape (l : List Alpaca.News) (s : String)
    (h : Alpaca.save_news_to_json l = .ok s) :
    ∃ entries, Alpaca.newsEntries l = .ok entries ∧
      entries.length = l.length ∧
      (∀ e ∈ entries, e.map Prod.fst = ["headline", "date", "summary", "content"] ∧
        ∀ kv ∈ e, ∃ str, kv.2 = JValue.str str) ∧
      s = jsonSerialize 4 0 (JValue.arr (entries.map JValue.obj)) := by
  unfold Alpaca.save_news_to_json at h
  cases hE : Alpaca.newsEntries l with
  | error e => rw [hE, except_bind_error] at h; cases h
  | ok entries =>
    rw [hE, except_bind_ok, except_pure_eq] at h
    obtain ⟨h1, h2⟩ := alpaca_newsEntries_shape l entries hE
    cases h
    exact ⟨entries, rfl, h1, h2, rfl⟩

/-- Witness for C5: the concrete singleton list is persisted and the
conclusion holds for it. -/
theorem C5_witness :
    Alpaca.save_news_to_json [newsW] = .ok savedW ∧
    (∃ entries, Alpaca.newsEntries [newsW] = .ok entries ∧
      entries.length = [newsW].length ∧
      (∀ e ∈ entries, e.map Prod.fst = ["headline", "date", "summary", "content"] ∧
        ∀ kv ∈ e, ∃ str, kv.2 = JValue.str str) ∧
      savedW = jsonSerialize 4 0 (JValue.arr (entries.map JValue.obj))) :=
  ⟨rfl, C5_saved_file_shape [newsW] savedW rfl⟩

/-- Behaviour of `finishRun` when serialization succeeds. -/
theorem alpaca_finishRun_of_save_ok (dataDir : String) (fd td : Datetime)
    (reqs : List (Option String)) (l : List Alpaca.News) (c : String)
    (hs : Alpaca.save_news_to_json l = .ok c) :
    Alpaca.finishRun dataDir fd td reqs l =
      ⟨reqs, [(Alpaca.filePathFor dataDir fd td, c)],
       .ok (l, Alpaca.filePathFor dataDir fd td)⟩ := by
  unfold Alpaca.finishRun
  rw [hs]

/-- Behaviour of `finishRun` when serialization fails. -/
theorem alpaca_finishRun_of_save_error (dataDir : String) (fd td : Datetime)
    (reqs : List (Option String)) (l : List Alpaca.News) (e : PyError)
    (hs : Alpaca.save_news_to_json l = .error e) :
    Alpaca.finishRun dataDir fd td reqs l = ⟨reqs, [], .error e⟩ := by
  unfold Alpaca.finishRun
  rw [hs]

/-- Success of `finishRun` pins the record list, the returned path, and the
single write of the saved content. -/
theorem alpaca_finishRun_ok (dataDir : String) (fd td : Datetime)
    (reqs : List (Option String)) (l l2 : List Alpaca.News) (p : String)
    (hres : (Alpaca.finishRun dataDir fd td reqs l).result = .ok (l2, p)) :
    l2 = l ∧ p = Alpaca.filePathFor dataDir fd td ∧
      ∃ c, Alpaca.save_news_to_json l = .ok c ∧
        (Alpaca.finishRun dataDir fd td reqs l).writes = [(p, c)] := by
  cases hs : Alpaca.save_news_to_json l with
  | error e =>
    rw [alpaca_finishRun_of_save_error dataDir fd td reqs l e hs] at hres
    exact Except.noConfusion hres
  | ok c =>
    rw [alpaca_finishRun_of_save_ok dataDir fd td reqs l c hs]
    rw [alpaca_finishRun_of_save_ok dataDir fd td reqs l c hs] at hres
    have hres2 : (Except.ok (l, Alpaca.filePathFor dataDir fd td) :
        Except PyError (List Alpaca.News × String)) = .ok (l2, p) := hres
    injection hres2 with hpair
    injection hpair with h1 h2
    subst h1
    subst h2
    exact ⟨rfl, rfl, c, rfl, rfl⟩

/-- A successful loop outcome can only come from `finishRun`: it returns the
derived file path and performs exactly one write, of the saved content. -/
theorem alpaca_downloadLoop_ok_shape (transport : Request → Page)
    (key secret dataDir : String) (fd td : Datetime) :
    ∀ (fuel : Nat) (reqs : List (Option String)) (acc : List Alpaca.News)
      (tok : String) (o : Alpaca.RunOutcome),
      Alpaca.downloadLoop transport key secret dataDir fd td fuel reqs acc tok = some o →
      ∀ l p, o.result = .ok (l, p) →
        p = Alpaca.filePathFor dataDir fd td ∧
          ∃ c, Alpaca.save_news_to_json l = .ok c ∧ o.writes = [(p, c)] := by
  intro fuel
  induction fuel with
  | zero =>
    intro reqs acc tok o h
    cases h
  | succ n ih =>
    intro reqs acc tok o h l p hres
    rw [Alpaca.downloadLoop] at h
    split at h
    · cases h
      exact Except.noConfusion hres
    · split at h
      · cases h
        exact Except.noConfusion hres
      · split at h
        · cases h
          exact Except.noConfusion hres
        · split at h
          · cases h
            obtain ⟨h1, h2, c, hc, hw⟩ := alpaca_finishRun_ok dataDir fd td _ _ l p hres
            exact ⟨h2, c, by rw [← h1] at hc; exact hc, hw⟩
          · exact ih _ _ _ o h l p hres

/-- C6: every successful run of `download_historical_news` returns the path
`<dataDir>/news_<from:%Y-%m-%d>_<to:%Y-%m-%d>.json` and performs exactly one
file write, at that path. -/
theorem C6_output_path (transport : Request → Page) (key secret dataDir : String)
    (fd td : Datetime) (fuel : Nat) (o : Alpaca.RunOutcome)
    (h : Alpaca.download_historical_news transport key secret dataDir fd td fuel = some o)
    (l : List Alpaca.News) (p : String) (hres : o.result = .ok (l, p)) :
    p = dataDir ++ "/news_" ++ strftimeDay fd ++ "_" ++ strftimeDay td ++ ".json" ∧
      ∃ c, o.writes = [(p, c)] := by
  rw [Alpaca.download_historical_news] at h
  split at h
  · cases h
    exact Except.noConfusion hres
  · split at h
    · cases h
      obtain ⟨h1, h2, c, hc, hw⟩ := alpaca_finishRun_ok dataDir fd td _ _ l p hres
      exact ⟨h2, c, hw⟩
    · obtain ⟨h2, c, hc, hw⟩ := alpaca_downloadLoop_ok_shape transport key secret dataDir
        fd td fuel _ _ _ o h l p hres
      exact ⟨h2, c, hw⟩

/-- Witness for C6: a concrete one-page run writes and returns the derived
path. -/
theorem C6_witness :
    Alpaca.download_historical_news transportOne "key" "secret" "data" dFrom dTo 1 =
      some ⟨[none], [("data/news_2025-04-20_2025-04-21.json", savedW)],
        .ok ([newsW], "data/news_2025-04-20_2025-04-21.json")⟩ ∧
    (⟨[none], [("data/news_2025-04-20_2025-04-21.json", savedW)],
        .ok ([newsW], "data/news_2025-04-20_2025-04-21.json")⟩ : Alpaca.RunOutcome).result =
      .ok ([newsW], "data/news_2025-04-20_2025-04-21.json") ∧
    ("data/news_2025-04-20_2025-04-21.json" =
      "data" ++ "/news_" ++ strftimeDay dFrom ++ "_" ++ strftimeDay dTo ++ ".json" ∧
      ∃ c, ([("data/news_2025-04-20_2025-04-21.json", savedW)] : List (String × String)) =
        [("data/news_2025-04-20_2025-04-21.json", c)]) :=
  ⟨rfl, rfl,
    C6_output_path transportOne "key" "secret" "data" dFrom dTo 1
      ⟨[none], [("data/news_2025-04-20_2025-04-21.json", savedW)],
        .ok ([newsW], "data/news_2025-04-20_2025-04-21.json")⟩ rfl
      [newsW] "data/news_2025-04-20_2025-04-21.json" rfl⟩

/-- C7: if either credential environment variable is absent, the script fails
at import time with the `KeyError`-derived configuration error, and the list
of issued fetch requests is empty — no network call is attempted. -/
theorem C7_missing_credentials_fail_fast (env : String → Option String)
    (transport : Request → Page) (dataDir : String) (fd td : Datetime) (fuel : Nat)
    (h : env "ALPACA_API_KEY" = none ∨ env "ALPACA_SECRET_KEY" = none) :
    ∃ msg, Alpaca.runScript env transport dataDir fd td fuel =
      some ([], .configError (.keyError msg)) := by
  unfold Alpaca.runScript Alpaca.loadCredentials
  rcases h with h | h
  · rw [h]
    exact ⟨_, rfl⟩
  · cases hk : env "ALPACA_API_KEY" with
    | none => exact ⟨_, rfl⟩
    | some k =>
      rw [h]
      exact ⟨_, rfl⟩

/-- Witness for C7 at the empty environment. -/
theorem C7_witness :
    ((fun _ => (none : Option String)) "ALPACA_API_KEY" = none ∨
      (fun _ => (none : Option String)) "ALPACA_SECRET_KEY" = none) ∧
    ∃ msg, Alpaca.runScript (fun _ => none) transportOne "data" dFrom dTo 1 =
      some ([], .configError (.keyError msg)) :=
  ⟨Or.inl rfl,
    C7_missing_credentials_fail_fast (fun _ => none) transportOne "data" dFrom dTo 1 (Or.inl rfl)⟩

/-- C8: each call of `fetch_batch_of_news` issues exactly the request built
from its arguments: `start`/`end` formatted `%Y-%m-%dT%H:%M:%SZ`, page size
50, a full-content flag, ascending sort, the continuation token exactly when
a cursor is supplied, and the two credential values in the headers — in both
variants. -/
theorem C8_request_shape (transport : Request → Page) (key secret : String)
    (fd td : Datetime) :
    (∀ cursor, (Alpaca.fetch_batch_of_news transport key secret fd td cursor).1 =
      Alpaca.buildRequest key secret fd td cursor) ∧
    (Alpaca.buildRequest key secret fd td none).params =
      [("start", .s (strftimeSec fd)), ("end", .s (strftimeSec td)),
       ("limit", .n 50), ("include_content", .b true), ("sort", .s "ASC")] ∧
    (∀ tok, (Alpaca.buildRequest key secret fd td (some tok)).params =
      [("start", .s (strftimeSec fd)), ("end", .s (strftimeSec td)),
       ("limit", .n 50), ("include_content", .b true), ("sort", .s "ASC"),
       ("page_token", .s tok)]) ∧
    (∀ cursor, (Alpaca.buildRequest key secret fd td cursor).headers =
      [("Apca-Api-Key-Id", key), ("Apca-Api-Secret-Key", secret)]) ∧
    (∀ cursor, (AlpacaSrc.fetch_batch_of_news transport key secret fd td cursor).1 =
      AlpacaSrc.buildRequest key secret fd td cursor) ∧
    (AlpacaSrc.buildRequest key secret fd td none).params =
      [("start", .s (strftimeSec fd)), ("end", .s (strftimeSec td)),
       ("limit", .n 50), ("including_content", .b true), ("sort", .s "ASC")] ∧
    (∀ tok, (AlpacaSrc.buildRequest key secret fd td (some tok)).params =
      [("start", .s (strftimeSec fd)), ("end", .s (strftimeSec td)),
       ("limit", .n 50), ("including_content", .b true), ("sort", .s "ASC"),
       ("page_token", .s tok)]) ∧
    (∀ cursor, (AlpacaSrc.buildRequest key secret fd td cursor).headers =
      [("APCA_API_KEY_ID", key), ("APCA_API_SECRET_KEY", secret)]) := by
  refine ⟨?_, rfl, fun tok => rfl, fun cursor => rfl, ?_, rfl, fun tok => rfl,
    fun cursor => rfl⟩
  · intro cursor
    unfold Alpaca.fetch_batch_of_news
    by_cases hc : (transport (Alpaca.buildRequest key secret fd td cursor)).status = 200 <;>
      simp [hc]
  · intro cursor
    unfold AlpacaSrc.fetch_batch_of_news
    by_cases h1 : 400 ≤ (transport (AlpacaSrc.buildRequest key secret fd td cursor)).status <;>
      by_cases h2 : (transport (AlpacaSrc.buildRequest key secret fd td cursor)).status = 200 <;>
      simp [h1, h2]

/-- The src variant's `News` has no `date` attribute. -/
theorem alpacaSrc_getAttr_date (nw : AlpacaSrc.News) : nw.getAttr "date" = none := rfl

/-- The src variant's `save_news_to_json` raises `AttributeError` on any
non-empty list, at the first record's `news.date` access. -/
theorem alpacaSrc_save_cons_error (nw : AlpacaSrc.News) (rest : List AlpacaSrc.News) :
    AlpacaSrc.save_news_to_json (nw :: rest) =
      .error (.attributeError "\x27News\x27 object has no attribute \x27date\x27") := rfl

/-- The src variant's pagination loop can never produce a successful
outcome: each iteration aborts at `batch_of_news[-1].date` (an
`AttributeError` on a non-empty batch, an `IndexError` on an empty one), if
the fetch itself did not already fail. -/
theorem alpacaSrc_downloadLoop_no_ok (transport : Request → Page)
    (key secret dataDir : String) (fd td : Datetime) :
    ∀ (fuel : Nat) (reqs : List (Option String)) (acc : List AlpacaSrc.News)
      (tok : String) (o : AlpacaSrc.RunOutcome),
      AlpacaSrc.downloadLoop transport key secret dataDir fd td fuel reqs acc tok = some o →
      ∀ l p, o.result ≠ .ok (l, p) := by
  intro fuel
  induction fuel with
  | zero =>
    intro reqs acc tok o h
    cases h
  | succ n ih =>
    intro reqs acc tok o h l p hres
    rw [AlpacaSrc.downloadLoop] at h
    split at h
    · cases h
      exact Except.noConfusion hres
    · split at h
      · cases h
        exact Except.noConfusion hres
      · split at h
        · cases h
          exact Except.noConfusion hres
        · rename_i heq
          rw [alpacaSrc_getAttr_date] at heq
          exact Option.noConfusion heq

/-- A successful src-variant `finishRun` forces the empty record list. -/
theorem alpacaSrc_finishRun_ok_nil (dataDir : String) (fd td : Datetime)
    (reqs : List (Option String)) (l l2 : List AlpacaSrc.News) (p : String)
    (hres : (AlpacaSrc.finishRun dataDir fd td reqs l).result = .ok (l2, p)) :
    l2 = [] := by
  cases l with
  | nil =>
    have hfin : AlpacaSrc.finishRun dataDir fd td reqs [] =
        ⟨reqs, [(Alpaca.filePathFor dataDir fd td,
                 jsonSerialize 4 0 (JValue.arr (List.map JValue.obj [])))],
         .ok ([], Alpaca.filePathFor dataDir fd td)⟩ := rfl
    rw [hfin] at hres
    have hres2 : (Except.ok ([], Alpaca.filePathFor dataDir fd td) :
        Except PyError (List AlpacaSrc.News × String)) = .ok (l2, p) := hres
    injection hres2 with hpair
    injection hpair with h1 h2
    exact h1.symm
  | cons nw rest =>
    exfalso
    unfold AlpacaSrc.finishRun at hres
    rw [alpacaSrc_save_cons_error nw rest] at hres
    exact Except.noConfusion hres

/-- C10: in the src/src variant the `News` dataclass names its timestamp
field `data` while `save_news_to_json` and the loop read `news.date`, so
saving any non-empty list raises `AttributeError`, and a run of
`download_historical_news` can succeed only with an empty record list. -/
theorem C10_src_variant_date_mismatch :
    (∀ (nw : AlpacaSrc.News) (rest : List AlpacaSrc.News),
      AlpacaSrc.save_news_to_json (nw :: rest) =
        .error (.attributeError "\x27News\x27 object has no attribute \x27date\x27")) ∧
    (∀ (transport : Request → Page) (key secret dataDir : String) (fd td : Datetime)
      (fuel : Nat) (o : AlpacaSrc.RunOutcome),
      AlpacaSrc.download_historical_news transport key secret dataDir fd td fuel = some o →
      ∀ l p, o.result = .ok (l, p) → l = []) := by
  constructor
  · exact alpacaSrc_save_cons_error
  · intro transport key secret dataDir fd td fuel o h l p hres
    rw [AlpacaSrc.download_historical_news] at h
    split at h
    · cases h
      exact Except.noConfusion hres
    · split at h
      · cases h
        exact alpacaSrc_finishRun_ok_nil dataDir fd td _ _ l p hres
      · exact absurd hres (alpacaSrc_downloadLoop_no_ok transport key secret dataDir
          fd td fuel _ _ _ o h l p)

/-- Witness for C10: a concrete non-empty save fails, and a concrete
successful run (empty server) indeed retrieved zero records. -/
theorem C10_witness :
    AlpacaSrc.save_news_to_json [srcNewsW] =
      .error (.attributeError "\x27News\x27 object has no attribute \x27date\x27") ∧
    AlpacaSrc.download_historical_news transportEmpty "key" "secret" "data" dFrom dTo 1 =
      some (AlpacaSrc.finishRun "data" dFrom dTo [none] []) ∧
    (AlpacaSrc.finishRun "data" dFrom dTo [none] []).result =
      .ok ([], Alpaca.filePathFor "data" dFrom dTo) ∧
    ([] : List AlpacaSrc.News) = [] :=
  ⟨C10_src_variant_date_mismatch.1 srcNewsW [], rfl, rfl,
    C10_src_variant_date_mismatch.2 transportEmpty "key" "secret" "data" dFrom dTo 1
      (AlpacaSrc.finishRun "data" dFrom dTo [none] []) rfl
      [] (Alpaca.filePathFor "data" dFrom dTo) rfl⟩

/-- C2 counterexample: on a concrete 200 response the modules variant stores
the wire string of `updated_at` verbatim in the record's date field — the
stored value is not a parsed date/time value. -/
theorem C2_counterexample_timestamp_not_parsed :
    (Alpaca.fetch_batch_of_news transportOne "key" "secret" dFrom dTo none).2 =
      .ok ([⟨"Apple up", "summary text", "full body",
             .str "2025-04-20T10:30:00Z"⟩], none) ∧
    PyVal.isDt (PyVal.str "2025-04-20T10:30:00Z") = false :=
  ⟨rfl, rfl⟩

/-- Parsing the src variant's `news` array: one record per entry, fields
copied exactly, the `timestamp` field parsed by `fromisoformat`. -/
theorem alpacaSrc_parseItems_spec :
    ∀ (items : List NewsItem) (lns : List AlpacaSrc.News),
      AlpacaSrc.parseItems items = .ok lns →
      lns.length = items.length ∧
      ∀ pr ∈ lns.zip items, ∃ d, fromisoformat pr.2.timestamp = some d ∧
        pr.1 = ⟨pr.2.headline, pr.2.summary, pr.2.content, PyVal.dt d⟩ := by
  intro items
  induction items with
  | nil =>
    intro lns h
    cases h
    exact ⟨rfl, by intro pr hpr; cases hpr⟩
  | cons item rest ih =>
    intro lns h
    rw [AlpacaSrc.parseItems] at h
    unfold AlpacaSrc.parseItem at h
    cases hfi : fromisoformat item.timestamp with
    | none =>
      rw [hfi, except_bind_error] at h
      cases h
    | some d =>
      rw [hfi, except_bind_ok] at h
      cases hrest : AlpacaSrc.parseItems rest with
      | error e =>
        rw [hrest, except_bind_error] at h
        cases h
      | ok rest2 =>
        rw [hrest, except_bind_ok, except_pure_eq] at h
        obtain ⟨h1, h2⟩ := ih rest2 hrest
        cases h
        refine ⟨by simp [h1], ?_⟩
        intro pr hpr
        rcases List.mem_cons.mp hpr with hpr | hpr
        · subst hpr
          exact ⟨d, hfi, rfl⟩
        · exact h2 pr hpr

/-- C2 amended: for every HTTP-200 fetch the record count equals the length
of the response's `news` array and headline/summary/content are copied
field-for-field; the timestamp field is NOT parsed in the modules variant —
`updated_at` is stored verbatim as a string — while the src variant parses
`timestamp` with `fromisoformat` (into its `data` field). -/
theorem C2_amended_field_mapping :
    (∀ (transport : Request → Page) (key secret : String) (fd td : Datetime)
        (cursor : Option String),
      (transport (Alpaca.buildRequest key secret fd td cursor)).status = 200 →
      (Alpaca.fetch_batch_of_news transport key secret fd td cursor).2 =
        .ok ((transport (Alpaca.buildRequest key secret fd td cursor)).news.map
               Alpaca.parseItem,
             (transport (Alpaca.buildRequest key secret fd td cursor)).next_page_token) ∧
      ((transport (Alpaca.buildRequest key secret fd td cursor)).news.map
        Alpaca.parseItem).length =
        (transport (Alpaca.buildRequest key secret fd td cursor)).news.length ∧
      (∀ item : NewsItem, Alpaca.parseItem item =
        ⟨item.headline, item.summary, item.content, PyVal.str item.updated_at⟩)) ∧
    (∀ (transport : Request → Page) (key secret : String) (fd td : Datetime)
        (cursor : Option String) (lns : List AlpacaSrc.News) (tok2 : Option String),
      (transport (AlpacaSrc.buildRequest key secret fd td cursor)).status = 200 →
      (AlpacaSrc.fetch_batch_of_news transport key secret fd td cursor).2 = .ok (lns, tok2) →
      tok2 = (transport (AlpacaSrc.buildRequest key secret fd td cursor)).next_page_token ∧
      lns.length = (transport (AlpacaSrc.buildRequest key secret fd td cursor)).news.length ∧
      ∀ pr ∈ lns.zip (transport (AlpacaSrc.buildRequest key secret fd td cursor)).news,
        ∃ d, fromisoformat pr.2.timestamp = some d ∧
          pr.1 = ⟨pr.2.headline, pr.2.summary, pr.2.content, PyVal.dt d⟩) := by
  constructor
  · intro transport key secret fd td cursor h200
    refine ⟨?_, List.length_map _ _, fun item => rfl⟩
    unfold Alpaca.fetch_batch_of_news
    simp [h200]
  · intro transport key secret fd td cursor lns tok2 h200 hok
    have hfe : (AlpacaSrc.fetch_batch_of_news transport key secret fd td cursor).2 =
        (AlpacaSrc.parseItems
            (transport (AlpacaSrc.buildRequest key secret fd td cursor)).news).map
          (fun l =>
            (l, (transport (AlpacaSrc.buildRequest key secret fd td cursor)).next_page_token)) := by
      unfold AlpacaSrc.fetch_batch_of_news
      simp [h200]
    rw [hfe] at hok
    cases hp : AlpacaSrc.parseItems
        (transport (AlpacaSrc.buildRequest key secret fd td cursor)).news with
    | error e =>
      rw [hp] at hok
      exact Except.noConfusion hok
    | ok l0 =>
      rw [hp] at hok
      have hok2 : (Except.ok
          (l0, (transport (AlpacaSrc.buildRequest key secret fd td cursor)).next_page_token) :
          Except PyError (List AlpacaSrc.News × Option String)) = .ok (lns, tok2) := hok
      injection hok2 with hpair
      injection hpair with h1 h2
      subst h1
      subst h2
      obtain ⟨hl, hz⟩ := alpacaSrc_parseItems_spec _ l0 hp
      exact ⟨rfl, hl, hz⟩

/-- Witness for the amended C2 at a concrete one-page 200 response, for both
variants. -/
theorem C2_witness :
    (transportOne (Alpaca.buildRequest "key" "secret" dFrom dTo none)).status = 200 ∧
    ((Alpaca.fetch_batch_of_news transportOne "key" "secret" dFrom dTo none).2 =
      .ok ((transportOne (Alpaca.buildRequest "key" "secret" dFrom dTo none)).news.map
             Alpaca.parseItem,
           (transportOne (Alpaca.buildRequest "key" "secret" dFrom dTo none)).next_page_token) ∧
     ((transportOne (Alpaca.buildRequest "key" "secret" dFrom dTo none)).news.map
       Alpaca.parseItem).length =
       (transportOne (Alpaca.buildRequest "key" "secret" dFrom dTo none)).news.length ∧
     (∀ item : NewsItem, Alpaca.parseItem item =
       ⟨item.headline, item.summary, item.content, PyVal.str item.updated_at⟩)) ∧
    (transportOne (AlpacaSrc.buildRequest "key" "secret" dFrom dTo none)).status = 200 ∧
    (AlpacaSrc.fetch_batch_of_news transportOne "key" "secret" dFrom dTo none).2 =
      .ok ([srcNewsW], none) ∧
    ((none : Option String) =
      (transportOne (AlpacaSrc.buildRequest "key" "secret" dFrom dTo none)).next_page_token ∧
     ([srcNewsW] : List AlpacaSrc.News).length =
       (transportOne (AlpacaSrc.buildRequest "key" "secret" dFrom dTo none)).news.length ∧
     ∀ pr ∈ ([srcNewsW] : List AlpacaSrc.News).zip
         (transportOne (AlpacaSrc.buildRequest "key" "secret" dFrom dTo none)).news,
       ∃ d, fromisoformat pr.2.timestamp = some d ∧
         pr.1 = ⟨pr.2.headline, pr.2.summary, pr.2.content, PyVal.dt d⟩) :=
  ⟨rfl,
   C2_amended_field_mapping.1 transportOne "key" "secret" dFrom dTo none rfl,
   rfl,
   by decide,
   C2_amended_field_mapping.2 transportOne "key" "secret" dFrom dTo none
     [srcNewsW] none rfl (by decide)⟩

/-- The first page of the cursor chain is fetched with no token. -/
theorem alpaca_chainPage_zero (transport : Request → Page) (key secret : String)
    (fd td : Datetime) :
    Alpaca.chainPage transport key secret fd td 0 =
      transport (Alpaca.buildRequest key secret fd td none) := rfl

/-- Page `i+1` of the cursor chain is fetched with page `i`'s token. -/
theorem alpaca_chainPage_succ (transport : Request → Page) (key secret : String)
    (fd td : Datetime) (i : Nat) :
    Alpaca.chainPage transport key secret fd td (i + 1) =
      transport (Alpaca.buildRequest key secret fd td
        (Alpaca.chainPage transport key secret fd td i).next_page_token) := rfl

/-- Behaviour of the modules variant's fetch on an HTTP-200 response. -/
theorem alpaca_fetch_ok (transport : Request → Page) (key secret : String)
    (fd td : Datetime) (cursor : Option String)
    (h200 : (transport (Alpaca.buildRequest key secret fd td cursor)).status = 200) :
    (Alpaca.fetch_batch_of_news transport key secret fd td cursor).2 =
      .ok ((transport (Alpaca.buildRequest key secret fd td cursor)).news.map
             Alpaca.parseItem,
           (transport (Alpaca.buildRequest key secret fd td cursor)).next_page_token) := by
  unfold Alpaca.fetch_batch_of_news
  simp [h200]

/-- Behaviour of the modules variant's fetch on a non-200 response: a
`RuntimeError` carrying the status code and the response body. -/
theorem alpaca_fetch_fail (transport : Request → Page) (key secret : String)
    (fd td : Datetime) (cursor : Option String)
    (hbad : (transport (Alpaca.buildRequest key secret fd td cursor)).status ≠ 200) :
    (Alpaca.fetch_batch_of_news transport key secret fd td cursor).2 =
      .error (.runtimeError ("Failed to fetch news: " ++
        toString (transport (Alpaca.buildRequest key secret fd td cursor)).status ++
        " - " ++ (transport (Alpaca.buildRequest key secret fd td cursor)).text)) := by
  unfold Alpaca.fetch_batch_of_news
  simp [hbad]

/-- Fetching with the token of page `i-1` reaches page `i` of the chain. -/
theorem alpaca_fetch_chain (transport : Request → Page) (key secret : String)
    (fd td : Datetime) (i : Nat) (s : String) (hi : 1 ≤ i)
    (hs : (Alpaca.chainPage transport key secret fd td (i - 1)).next_page_token = some s) :
    transport (Alpaca.buildRequest key secret fd td (some s)) =
      Alpaca.chainPage transport key secret fd td i := by
  obtain ⟨j, rfl⟩ : ∃ j, i = j + 1 := ⟨i - 1, by omega⟩
  rw [alpaca_chainPage_succ]
  simp only [Nat.add_sub_cancel] at hs
  rw [hs]

/-- One loop iteration that fetched a non-empty batch and a fresh token
continues with the extended state. -/
theorem alpaca_loop_step_continue (transport : Request → Page)
    (key secret dataDir : String) (fd td : Datetime) (fuel : Nat)
    (reqs : List (Option String)) (acc : List Alpaca.News) (tok : String)
    (batch : List Alpaca.News) (t2 : String) (last : Alpaca.News)
    (hf : (Alpaca.fetch_batch_of_news transport key secret fd td (some tok)).2 =
      .ok (batch, some t2))
    (hlast : batch.getLast? = some last) :
    Alpaca.downloadLoop transport key secret dataDir fd td (fuel + 1) reqs acc tok =
      Alpaca.downloadLoop transport key secret dataDir fd td fuel
        (reqs ++ [some tok]) (acc ++ batch) t2 := by
  rw [Alpaca.downloadLoop]
  simp only [hf, hlast, alpaca_getAttr_date]

/-- One loop iteration that fetched a non-empty batch and no token leaves
the loop and saves. -/
theorem alpaca_loop_step_finish (transport : Request → Page)
    (key secret dataDir : String) (fd td : Datetime) (fuel : Nat)
    (reqs : List (Option String)) (acc : List Alpaca.News) (tok : String)
    (batch : List Alpaca.News) (last : Alpaca.News)
    (hf : (Alpaca.fetch_batch_of_news transport key secret fd td (some tok)).2 =
      .ok (batch, none))
    (hlast : batch.getLast? = some last) :
    Alpaca.downloadLoop transport key secret dataDir fd td (fuel + 1) reqs acc tok =
      some (Alpaca.finishRun dataDir fd td (reqs ++ [some tok]) (acc ++ batch)) := by
  rw [Alpaca.downloadLoop]
  simp only [hf, hlast, alpaca_getAttr_date]

/-- One loop iteration whose fetch raised propagates the exception with no
file write. -/
theorem alpaca_loop_step_error (transport : Request → Page)
    (key secret dataDir : String) (fd td : Datetime) (fuel : Nat)
    (reqs : List (Option String)) (acc : List Alpaca.News) (tok : String)
    (e : PyError)
    (hf : (Alpaca.fetch_batch_of_news transport key secret fd td (some tok)).2 = .error e) :
    Alpaca.downloadLoop transport key secret dataDir fd td (fuel + 1) reqs acc tok =
      some ⟨reqs ++ [some tok], [], .error e⟩ := by
  rw [Alpaca.downloadLoop]
  simp only [hf]

/-- One loop iteration that fetched an empty batch raises `IndexError` at
`batch_of_news[-1]`, regardless of the token. -/
theorem alpaca_loop_step_empty (transport : Request → Page)
    (key secret dataDir : String) (fd td : Datetime) (fuel : Nat)
    (reqs : List (Option String)) (acc : List Alpaca.News) (tok : String)
    (next : Option String)
    (hf : (Alpaca.fetch_batch_of_news transport key secret fd td (some tok)).2 =
      .ok ([], next)) :
    Alpaca.downloadLoop transport key secret dataDir fd td (fuel + 1) reqs acc tok =
      some ⟨reqs ++ [some tok], [], .error .indexError⟩ := by
  rw [Alpaca.downloadLoop]
  simp only [hf, List.getLast?]

/-- Running the loop across `n` consecutive chain pages that are all 200,
non-empty and token-carrying: the requests and records of pages
`i .. i+n-1` are appended in visit order, and the loop continues with the
token of page `i+n-1`. -/
theorem alpaca_downloadLoop_steps (transport : Request → Page)
    (key secret dataDir : String) (fd td : Datetime) :
    ∀ (n i fuel : Nat) (reqs : List (Option String)) (acc : List Alpaca.News) (s : String),
      1 ≤ i →
      (Alpaca.chainPage transport key secret fd td (i - 1)).next_page_token = some s →
      (∀ j, i ≤ j → j < i + n →
        (Alpaca.chainPage transport key secret fd td j).status = 200 ∧
        (Alpaca.chainPage transport key secret fd td j).news ≠ [] ∧
        (Alpaca.chainPage transport key secret fd td j).next_page_token.isSome = true) →
      ∃ s2, (Alpaca.chainPage transport key secret fd td (i + n - 1)).next_page_token = some s2 ∧
        Alpaca.downloadLoop transport key secret dataDir fd td (n + fuel) reqs acc s =
          Alpaca.downloadLoop transport key secret dataDir fd td fuel
            (reqs ++ (List.range' (i - 1) n).map
              (fun j => (Alpaca.chainPage transport key secret fd td j).next_page_token))
            (acc ++ ((List.range' i n).map
              (fun j => (Alpaca.chainPage transport key secret fd td j).news.map
                Alpaca.parseItem)).flatten)
            s2 := by
  intro n
  induction n with
  | zero =>
    intro i fuel reqs acc s hi hs hgood
    refine ⟨s, ?_, ?_⟩
    · simpa using hs
    · simp
  | succ n ih =>
    intro i fuel reqs acc s hi hs hgood
    have hpage := alpaca_fetch_chain transport key secret fd td i s hi hs
    obtain ⟨h200i, hnei, htoki⟩ := hgood i (le_refl i) (by omega)
    obtain ⟨s1, hs1⟩ := Option.isSome_iff_exists.mp htoki
    have hfetch : (Alpaca.fetch_batch_of_news transport key secret fd td (some s)).2 =
        .ok ((Alpaca.chainPage transport key secret fd td i).news.map Alpaca.parseItem,
             some s1) := by
      rw [alpaca_fetch_ok transport key secret fd td (some s) (by rw [hpage]; exact h200i)]
      rw [hpage, hs1]
    obtain ⟨last, hlast⟩ : ∃ a, ((Alpaca.chainPage transport key secret fd td i).news.map
        Alpaca.parseItem).getLast? = some a := by
      refine Option.isSome_iff_exists.mp ?_
      rw [List.getLast?_isSome]
      simp [hnei]
    have hstep := alpaca_loop_step_continue transport key secret dataDir fd td (n + fuel)
      reqs acc s _ s1 last hfetch hlast
    have hs1b : (Alpaca.chainPage transport key secret fd td ((i + 1) - 1)).next_page_token =
        some s1 := by simpa using hs1
    obtain ⟨s2, hs2, heq⟩ := ih (i + 1) fuel (reqs ++ [some s])
      (acc ++ (Alpaca.chainPage transport key secret fd td i).news.map Alpaca.parseItem) s1
      (by omega) hs1b
      (fun j h1 h2 => hgood j (by omega) (by omega))
    refine ⟨s2, ?_, ?_⟩
    · rw [show i + (n + 1) - 1 = (i + 1) + n - 1 from by omega]
      exact hs2
    · rw [show n + 1 + fuel = (n + fuel) + 1 from by omega, hstep, heq]
      rw [show List.range' (i - 1) (n + 1) = (i - 1) :: List.range' (i - 1 + 1) n from rfl]
      rw [show i - 1 + 1 = i from by omega]
      rw [show List.range' i (n + 1) = i :: List.range' (i + 1) n from rfl]
      simp only [List.map_cons, hs, List.flatten_cons, Nat.add_sub_cancel]
      rw [List.append_cons, List.append_assoc]
      simp [List.append_assoc]

/-- Unrolling `download_historical_news` across the first fetch and `m-1`
good loop pages: the run reaches the loop with the token of page `m-1`,
having issued the cursorless request plus the tokens of pages `0 .. m-2`,
and accumulated the records of pages `0 .. m-1`. -/
theorem alpaca_download_unroll (transport : Request → Page)
    (key secret dataDir : String) (fd td : Datetime) (m f2 : Nat) (hm : 1 ≤ m)
    (hgood : ∀ j, j < m →
      (Alpaca.chainPage transport key secret fd td j).status = 200 ∧
      (1 ≤ j → (Alpaca.chainPage transport key secret fd td j).news ≠ []) ∧
      (Alpaca.chainPage transport key secret fd td j).next_page_token.isSome = true) :
    ∃ s2, (Alpaca.chainPage transport key secret fd td (m - 1)).next_page_token = some s2 ∧
      Alpaca.download_historical_news transport key secret dataDir fd td
          ((m - 1) + (f2 + 1)) =
        Alpaca.downloadLoop transport key secret dataDir fd td (f2 + 1)
          ((none : Option String) :: (List.range' 0 (m - 1)).map
            (fun j => (Alpaca.chainPage transport key secret fd td j).next_page_token))
          (((List.range' 0 m).map
            (fun j => (Alpaca.chainPage transport key secret fd td j).news.map
              Alpaca.parseItem)).flatten)
          s2 := by
  obtain ⟨m0, rfl⟩ : ∃ m0, m = m0 + 1 := ⟨m - 1, by omega⟩
  simp only [Nat.add_sub_cancel]
  obtain ⟨h200z, hnez, htokz⟩ := hgood 0 (by omega)
  obtain ⟨s0, hs0⟩ := Option.isSome_iff_exists.mp htokz
  have hfetch0 : (Alpaca.fetch_batch_of_news transport key secret fd td none).2 =
      .ok ((Alpaca.chainPage transport key secret fd td 0).news.map Alpaca.parseItem,
           some s0) := by
    rw [alpaca_fetch_ok transport key secret fd td none h200z]
    rw [show transport (Alpaca.buildRequest key secret fd td none) =
        Alpaca.chainPage transport key secret fd td 0 from rfl, hs0]
  obtain ⟨s2, hs2, heq⟩ := alpaca_downloadLoop_steps transport key secret dataDir fd td
    m0 1 (f2 + 1) [none]
    ((Alpaca.chainPage transport key secret fd td 0).news.map Alpaca.parseItem) s0
    (by omega) (by simpa using hs0)
    (fun j h1 h2 =>
      ⟨(hgood j (by omega)).1, (hgood j (by omega)).2.1 h1, (hgood j (by omega)).2.2⟩)
  refine ⟨s2, by simpa using hs2, ?_⟩
  rw [Alpaca.download_historical_news]
  simp only [hfetch0]
  rw [heq]
  rw [show List.range' 0 (m0 + 1) = 0 :: List.range' 1 m0 from rfl]
  simp [List.flatten_cons]

/-- Every record produced by the modules variant's item parser carries a
string in its date field. -/
theorem alpaca_map_parseItem_dates (items : List NewsItem) :
    ∀ nw ∈ items.map Alpaca.parseItem, ∃ s, nw.date = PyVal.str s := by
  intro nw hnw
  obtain ⟨it, hit, rfl⟩ := List.mem_map.mp hnw
  exact ⟨it.updated_at, rfl⟩

/-- Records accumulated from any family of parsed pages all carry string
dates. -/
theorem alpaca_flatten_parse_dates (L : List Nat) (g : Nat → List NewsItem) :
    ∀ nw ∈ (L.map (fun j => (g j).map Alpaca.parseItem)).flatten,
      ∃ s, nw.date = PyVal.str s := by
  intro nw hnw
  rw [List.mem_flatten] at hnw
  obtain ⟨l, hl, hmem⟩ := hnw
  obtain ⟨j, hj, rfl⟩ := List.mem_map.mp hl
  exact alpaca_map_parseItem_dates (g j) nw hmem

/-- A complete successful run of `download_historical_news` along a cursor
chain that ends at page `k`: the requests are the cursorless one plus each
page's token in order, the result list is the concatenation of the parsed
pages in visit order, and one file is written at the derived path. -/
theorem alpaca_download_success (transport : Request → Page)
    (key secret dataDir : String) (fd td : Datetime) (k fuel : Nat)
    (hfuel : k ≤ fuel)
    (h200 : ∀ j, j ≤ k → (Alpaca.chainPage transport key secret fd td j).status = 200)
    (hne : ∀ j, 1 ≤ j → j ≤ k → (Alpaca.chainPage transport key secret fd td j).news ≠ [])
    (htok : ∀ j, j < k →
      (Alpaca.chainPage transport key secret fd td j).next_page_token.isSome = true)
    (hend : (Alpaca.chainPage transport key secret fd td k).next_page_token = none) :
    ∃ content, Alpaca.download_historical_news transport key secret dataDir fd td fuel =
      some ⟨none :: (List.range k).map
              (fun j => (Alpaca.chainPage transport key secret fd td j).next_page_token),
            [(Alpaca.filePathFor dataDir fd td, content)],
            .ok (((List.range (k + 1)).map
                (fun j => (Alpaca.chainPage transport key secret fd td j).news.map
                  Alpaca.parseItem)).flatten,
              Alpaca.filePathFor dataDir fd td)⟩ := by
  cases k with
  | zero =>
    have hfetch0 : (Alpaca.fetch_batch_of_news transport key secret fd td none).2 =
        .ok ((Alpaca.chainPage transport key secret fd td 0).news.map Alpaca.parseItem,
             none) := by
      rw [alpaca_fetch_ok transport key secret fd td none (h200 0 (by omega))]
      rw [show transport (Alpaca.buildRequest key secret fd td none) =
          Alpaca.chainPage transport key secret fd td 0 from rfl, hend]
    obtain ⟨c, hc⟩ := alpaca_save_ok
      ((Alpaca.chainPage transport key secret fd td 0).news.map Alpaca.parseItem)
      (alpaca_map_parseItem_dates _)
    refine ⟨c, ?_⟩
    rw [Alpaca.download_historical_news]
    simp only [hfetch0]
    rw [alpaca_finishRun_of_save_ok dataDir fd td [none] _ c hc]
    simp [List.range_succ]
  | succ m =>
    obtain ⟨f2, rfl⟩ : ∃ f2, fuel = m + (f2 + 1) := ⟨fuel - (m + 1), by omega⟩
    obtain ⟨s2, hs2, heq⟩ := alpaca_download_unroll transport key secret dataDir fd td
      (m + 1) f2 (by omega)
      (fun j hj => ⟨h200 j (by omega), fun h1 => hne j h1 (by omega), htok j hj⟩)
    simp only [Nat.add_sub_cancel] at hs2 heq
    have hpage := alpaca_fetch_chain transport key secret fd td (m + 1) s2 (by omega)
      (by simpa using hs2)
    have hfetchk : (Alpaca.fetch_batch_of_news transport key secret fd td (some s2)).2 =
        .ok ((Alpaca.chainPage transport key secret fd td (m + 1)).news.map Alpaca.parseItem,
             none) := by
      rw [alpaca_fetch_ok transport key secret fd td (some s2)
        (by rw [hpage]; exact h200 (m + 1) (le_refl _))]
      rw [hpage, hend]
    obtain ⟨last, hlast⟩ : ∃ a,
        ((Alpaca.chainPage transport key secret fd td (m + 1)).news.map
          Alpaca.parseItem).getLast? = some a := by
      refine Option.isSome_iff_exists.mp ?_
      rw [List.getLast?_isSome]
      simp [hne (m + 1) (by omega) (le_refl _)]
    have hstep := alpaca_loop_step_finish transport key secret dataDir fd td f2
      ((none : Option String) :: (List.range' 0 m).map
        (fun j => (Alpaca.chainPage transport key secret fd td j).next_page_token))
      (((List.range' 0 (m + 1)).map
        (fun j => (Alpaca.chainPage transport key secret fd td j).news.map
          Alpaca.parseItem)).flatten)
      s2 _ last hfetchk hlast
    obtain ⟨c, hc⟩ := alpaca_save_ok
      ((((List.range' 0 (m + 1)).map
          (fun j => (Alpaca.chainPage transport key secret fd td j).news.map
            Alpaca.parseItem)).flatten) ++
        (Alpaca.chainPage transport key secret fd td (m + 1)).news.map Alpaca.parseItem)
      (by
        intro nw hnw
        rcases List.mem_append.mp hnw with hnw | hnw
        · exact alpaca_flatten_parse_dates (List.range' 0 (m + 1))
            (fun j => (Alpaca.chainPage transport key secret fd td j).news) nw hnw
        · exact alpaca_map_parseItem_dates _ nw hnw)
    refine ⟨c, ?_⟩
    rw [heq, hstep, alpaca_finishRun_of_save_ok dataDir fd td _ _ c hc]
    simp only [List.range_eq_range', List.range'_concat, Nat.one_mul, Nat.zero_add,
      List.map_append, List.flatten_append, List.flatten_cons, List.flatten_nil,
      List.append_nil, List.nil_append, List.cons_append, List.map_cons, List.map_nil,
      hs2, List.append_assoc]

/-- C1: in a run whose page fetches all succeed (and whose loop pages are
non-empty, so the `batch_of_news[-1]` access cannot abort it), the first
request carries no cursor, each subsequent request carries the token returned
by the previous page, the result list is the concatenation of the per-page
record lists in visit order, and its length is the sum of the per-page record
counts. -/
theorem C1_pagination_concatenates (transport : Request → Page)
    (key secret dataDir : String) (fd td : Datetime) (k fuel : Nat)
    (hfuel : k ≤ fuel)
    (h200 : ∀ j, j ≤ k → (Alpaca.chainPage transport key secret fd td j).status = 200)
    (hne : ∀ j, 1 ≤ j → j ≤ k → (Alpaca.chainPage transport key secret fd td j).news ≠ [])
    (htok : ∀ j, j < k →
      (Alpaca.chainPage transport key secret fd td j).next_page_token.isSome = true)
    (hend : (Alpaca.chainPage transport key secret fd td k).next_page_token = none) :
    ∃ o : Alpaca.RunOutcome,
      Alpaca.download_historical_news transport key secret dataDir fd td fuel = some o ∧
      o.requests = none :: (List.range k).map
        (fun j => (Alpaca.chainPage transport key secret fd td j).next_page_token) ∧
      ∃ l, o.result = .ok (l, Alpaca.filePathFor dataDir fd td) ∧
        l = ((List.range (k + 1)).map
          (fun j => (Alpaca.chainPage transport key secret fd td j).news.map
            Alpaca.parseItem)).flatten ∧
        l.length = ((List.range (k + 1)).map
          (fun j => (Alpaca.chainPage transport key secret fd td j).news.length)).sum := by
  obtain ⟨c, hc⟩ := alpaca_download_success transport key secret dataDir fd td k fuel
    hfuel h200 hne htok hend
  refine ⟨_, hc, rfl, _, rfl, rfl, ?_⟩
  rw [List.length_flatten, List.map_map]
  congr 1
  exact List.map_congr_left (fun j hj => by simp)

/-- Witness for C1 at a concrete two-page chain. -/
theorem C1_witness :
    (∀ j, j ≤ 1 → (Alpaca.chainPage transport2 "key" "secret" dFrom dTo j).status = 200) ∧
    (∀ j, 1 ≤ j → j ≤ 1 →
      (Alpaca.chainPage transport2 "key" "secret" dFrom dTo j).news ≠ []) ∧
    (∀ j, j < 1 →
      (Alpaca.chainPage transport2 "key" "secret" dFrom dTo j).next_page_token.isSome = true) ∧
    (Alpaca.chainPage transport2 "key" "secret" dFrom dTo 1).next_page_token = none ∧
    (∃ o : Alpaca.RunOutcome,
      Alpaca.download_historical_news transport2 "key" "secret" "data" dFrom dTo 1 = some o ∧
      o.requests = none :: (List.range 1).map
        (fun j => (Alpaca.chainPage transport2 "key" "secret" dFrom dTo j).next_page_token) ∧
      ∃ l, o.result = .ok (l, Alpaca.filePathFor "data" dFrom dTo) ∧
        l = ((List.range 2).map
          (fun j => (Alpaca.chainPage transport2 "key" "secret" dFrom dTo j).news.map
            Alpaca.parseItem)).flatten ∧
        l.length = ((List.range 2).map
          (fun j => (Alpaca.chainPage transport2 "key" "secret" dFrom dTo j).news.length)).sum) :=
  ⟨by decide, by decide, by decide, by decide,
    C1_pagination_concatenates transport2 "key" "secret" "data" dFrom dTo 1 1
      (le_refl 1) (by decide) (by decide) (by decide) (by decide)⟩

/-- C3: if the pages before `m` all succeed with tokens (and non-empty loop
batches) but page `m` returns a non-200 status, the whole run aborts with a
`RuntimeError` naming the status code and the response body, and no file is
written. -/
theorem C3_non200_aborts_without_file (transport : Request → Page)
    (key secret dataDir : String) (fd td : Datetime) (m fuel : Nat)
    (hfuel : m ≤ fuel)
    (hgood : ∀ j, j < m →
      (Alpaca.chainPage transport key secret fd td j).status = 200 ∧
      (1 ≤ j → (Alpaca.chainPage transport key secret fd td j).news ≠ []) ∧
      (Alpaca.chainPage transport key secret fd td j).next_page_token.isSome = true)
    (hbad : (Alpaca.chainPage transport key secret fd td m).status ≠ 200) :
    Alpaca.download_historical_news transport key secret dataDir fd td fuel =
      some ⟨none :: (List.range m).map
              (fun j => (Alpaca.chainPage transport key secret fd td j).next_page_token),
            [],
            .error (.runtimeError ("Failed to fetch news: " ++
              toString (Alpaca.chainPage transport key secret fd td m).status ++ " - " ++
              (Alpaca.chainPage transport key secret fd td m).text))⟩ := by
  cases m with
  | zero =>
    rw [Alpaca.download_historical_news]
    have hf := alpaca_fetch_fail transport key secret fd td none hbad
    simp only [hf]
    simp
    rfl
  | succ m0 =>
    obtain ⟨f2, rfl⟩ : ∃ f2, fuel = m0 + (f2 + 1) := ⟨fuel - (m0 + 1), by omega⟩
    obtain ⟨s2, hs2, heq⟩ := alpaca_download_unroll transport key secret dataDir fd td
      (m0 + 1) f2 (by omega) hgood
    simp only [Nat.add_sub_cancel] at hs2 heq
    have hpage := alpaca_fetch_chain transport key secret fd td (m0 + 1) s2 (by omega)
      (by simpa using hs2)
    have hfk := alpaca_fetch_fail transport key secret fd td (some s2)
      (by rw [hpage]; exact hbad)
    rw [hpage] at hfk
    have hstep := alpaca_loop_step_error transport key secret dataDir fd td f2
      ((none : Option String) :: (List.range' 0 m0).map
        (fun j => (Alpaca.chainPage transport key secret fd td j).next_page_token))
      (((List.range' 0 (m0 + 1)).map
        (fun j => (Alpaca.chainPage transport key secret fd td j).news.map
          Alpaca.parseItem)).flatten)
      s2 _ hfk
    rw [heq, hstep]
    simp only [List.range_eq_range', List.range'_concat, Nat.one_mul, Nat.zero_add,
      List.map_append, List.map_cons, List.map_nil, List.cons_append, List.nil_append,
      hs2, List.append_assoc]

/-- C9: if the pages before `m` all succeed with tokens and non-empty
batches, and page `m` (a loop page, `m ≥ 1`) succeeds but returns an empty
record list, the run aborts with `IndexError` at `batch_of_news[-1]` — no
cursor check, no file write — even though every fetch succeeded. -/
theorem C9_empty_loop_batch_index_error (transport : Request → Page)
    (key secret dataDir : String) (fd td : Datetime) (m fuel : Nat)
    (hm : 1 ≤ m) (hfuel : m ≤ fuel)
    (hgood : ∀ j, j < m →
      (Alpaca.chainPage transport key secret fd td j).status = 200 ∧
      (1 ≤ j → (Alpaca.chainPage transport key secret fd td j).news ≠ []) ∧
      (Alpaca.chainPage transport key secret fd td j).next_page_token.isSome = true)
    (h200m : (Alpaca.chainPage transport key secret fd td m).status = 200)
    (hempty : (Alpaca.chainPage transport key secret fd td m).news = []) :
    Alpaca.download_historical_news transport key secret dataDir fd td fuel =
      some ⟨none :: (List.range m).map
              (fun j => (Alpaca.chainPage transport key secret fd td j).next_page_token),
            [],
            .error .indexError⟩ := by
  obtain ⟨m0, rfl⟩ : ∃ m0, m = m0 + 1 := ⟨m - 1, by omega⟩
  obtain ⟨f2, rfl⟩ : ∃ f2, fuel = m0 + (f2 + 1) := ⟨fuel - (m0 + 1), by omega⟩
  obtain ⟨s2, hs2, heq⟩ := alpaca_download_unroll transport key secret dataDir fd td
    (m0 + 1) f2 (by omega) hgood
  simp only [Nat.add_sub_cancel] at hs2 heq
  have hpage := alpaca_fetch_chain transport key secret fd td (m0 + 1) s2 (by omega)
    (by simpa using hs2)
  have hfk : (Alpaca.fetch_batch_of_news transport key secret fd td (some s2)).2 =
      .ok ([], (Alpaca.chainPage transport key secret fd td (m0 + 1)).next_page_token) := by
    rw [alpaca_fetch_ok transport key secret fd td (some s2) (by rw [hpage]; exact h200m)]
    rw [hpage, hempty]
    rfl
  have hstep := alpaca_loop_step_empty transport key secret dataDir fd td f2
    ((none : Option String) :: (List.range' 0 m0).map
      (fun j => (Alpaca.chainPage transport key secret fd td j).next_page_token))
    (((List.range' 0 (m0 + 1)).map
      (fun j => (Alpaca.chainPage transport key secret fd td j).news.map
        Alpaca.parseItem)).flatten)
    s2 _ hfk
  rw [heq, hstep]
  simp only [List.range_eq_range', List.range'_concat, Nat.one_mul, Nat.zero_add,
    List.map_append, List.map_cons, List.map_nil, List.cons_append, List.nil_append,
    hs2, List.append_assoc]

/-- Witness for C3: a concrete run whose second page returns 403 aborts
after one successful page, with no file write. -/
theorem C3_witness :
    (∀ j, j < 1 →
      (Alpaca.chainPage transportFail2 "key" "secret" dFrom dTo j).status = 200 ∧
      (1 ≤ j → (Alpaca.chainPage transportFail2 "key" "secret" dFrom dTo j).news ≠ []) ∧
      (Alpaca.chainPage transportFail2 "key" "secret" dFrom dTo j).next_page_token.isSome =
        true) ∧
    (Alpaca.chainPage transportFail2 "key" "secret" dFrom dTo 1).status ≠ 200 ∧
    Alpaca.download_historical_news transportFail2 "key" "secret" "data" dFrom dTo 1 =
      some ⟨none :: (List.range 1).map
              (fun j => (Alpaca.chainPage transportFail2 "key" "secret" dFrom dTo j).next_page_token),
            [],
            .error (.runtimeError ("Failed to fetch news: " ++
              toString (Alpaca.chainPage transportFail2 "key" "secret" dFrom dTo 1).status ++
              " - " ++ (Alpaca.chainPage transportFail2 "key" "secret" dFrom dTo 1).text))⟩ :=
  ⟨by decide, by decide,
    C3_non200_aborts_without_file transportFail2 "key" "secret" "data" dFrom dTo 1 1
      (le_refl 1) (by decide) (by decide)⟩

/-- Witness for C9: a concrete run whose second page is empty aborts with
`IndexError` although both fetches returned 200. -/
theorem C9_witness :
    (∀ j, j < 1 →
      (Alpaca.chainPage transportEmptySecond "key" "secret" dFrom dTo j).status = 200 ∧
      (1 ≤ j →
        (Alpaca.chainPage transportEmptySecond "key" "secret" dFrom dTo j).news ≠ []) ∧
      (Alpaca.chainPage transportEmptySecond "key" "secret" dFrom dTo j).next_page_token.isSome =
        true) ∧
    (Alpaca.chainPage transportEmptySecond "key" "secret" dFrom dTo 1).status = 200 ∧
    (Alpaca.chainPage transportEmptySecond "key" "secret" dFrom dTo 1).news = [] ∧
    Alpaca.download_historical_news transportEmptySecond "key" "secret" "data" dFrom dTo 1 =
      some ⟨none :: (List.range 1).map
              (fun j => (Alpaca.chainPage transportEmptySecond "key" "secret" dFrom dTo j).next_page_token),
            [],
            .error .indexError⟩ :=
  ⟨by decide, by decide, by decide,
    C9_empty_loop_batch_index_error transportEmptySecond "key" "secret" "data" dFrom dTo 1 1
      (le_refl 1) (le_refl 1) (by decide) (by decide) (by decide)⟩

/-- Against a server that answers every request with 200, a non-empty batch
and a token, the pagination loop consumes all fuel without terminating. -/
theorem alpaca_downloadLoop_infinite (transport : Request → Page)
    (key secret dataDir : String) (fd td : Datetime)
    (h : ∀ req : Request, (transport req).status = 200 ∧ (transport req).news ≠ [] ∧
      (transport req).next_page_token.isSome = true) :
    ∀ (fuel : Nat) (reqs : List (Option String)) (acc : List Alpaca.News) (tok : String),
      Alpaca.downloadLoop transport key secret dataDir fd td fuel reqs acc tok = none := by
  intro fuel
  induction fuel with
  | zero =>
    intro reqs acc tok
    rfl
  | succ n ih =>
    intro reqs acc tok
    obtain ⟨h200, hne, htok⟩ := h (Alpaca.buildRequest key secret fd td (some tok))
    obtain ⟨t2, ht2⟩ := Option.isSome_iff_exists.mp htok
    have hfetch : (Alpaca.fetch_batch_of_news transport key secret fd td (some tok)).2 =
        .ok ((transport (Alpaca.buildRequest key secret fd td (some tok))).news.map
              Alpaca.parseItem, some t2) := by
      rw [alpaca_fetch_ok transport key secret fd td (some tok) h200, ht2]
    obtain ⟨last, hlast⟩ : ∃ a,
        ((transport (Alpaca.buildRequest key secret fd td (some tok))).news.map
          Alpaca.parseItem).getLast? = some a := by
      refine Option.isSome_iff_exists.mp ?_
      rw [List.getLast?_isSome]
      simp [hne]
    rw [alpaca_loop_step_continue transport key secret dataDir fd td n reqs acc tok _ t2
      last hfetch hlast]
    exact ih _ _ _

/-- Against such a server the whole download never terminates, whatever the
fuel. -/
theorem alpaca_download_infinite (transport : Request → Page)
    (key secret dataDir : String) (fd td : Datetime)
    (h : ∀ req : Request, (transport req).status = 200 ∧ (transport req).news ≠ [] ∧
      (transport req).next_page_token.isSome = true) :
    ∀ fuel, Alpaca.download_historical_news transport key secret dataDir fd td fuel = none := by
  intro fuel
  obtain ⟨h200, hne, htok⟩ := h (Alpaca.buildRequest key secret fd td none)
  obtain ⟨t0, ht0⟩ := Option.isSome_iff_exists.mp htok
  have hfetch0 : (Alpaca.fetch_batch_of_news transport key secret fd td none).2 =
      .ok ((transport (Alpaca.buildRequest key secret fd td none)).news.map
            Alpaca.parseItem, some t0) := by
    rw [alpaca_fetch_ok transport key secret fd td none h200, ht0]
  rw [Alpaca.download_historical_news]
  simp only [hfetch0]
  exact alpaca_downloadLoop_infinite transport key secret dataDir fd td h fuel [none] _ t0

/-- C4 amended: provided every fetched page is HTTP 200 and every loop page
is non-empty, the loop terminates exactly when some page carries no
continuation token — it then stops having visited exactly that page's chain —
and a server that always returns 200, a non-empty batch and a token makes
the loop run forever.  (Without the non-emptiness proviso the original claim
fails: an always-token server whose loop pages are empty terminates the loop
by `IndexError`.) -/
theorem C4_amended_termination :
    (∀ (transport : Request → Page) (key secret dataDir : String) (fd td : Datetime)
        (k fuel : Nat), k ≤ fuel →
      (∀ j, j ≤ k → (Alpaca.chainPage transport key secret fd td j).status = 200) →
      (∀ j, 1 ≤ j → j ≤ k → (Alpaca.chainPage transport key secret fd td j).news ≠ []) →
      (∀ j, j < k →
        (Alpaca.chainPage transport key secret fd td j).next_page_token.isSome = true) →
      (Alpaca.chainPage transport key secret fd td k).next_page_token = none →
      ∃ o : Alpaca.RunOutcome,
        Alpaca.download_historical_news transport key secret dataDir fd td fuel = some o ∧
        o.requests.length = k + 1) ∧
    (∀ (transport : Request → Page) (key secret dataDir : String) (fd td : Datetime),
      (∀ req : Request, (transport req).status = 200 ∧ (transport req).news ≠ [] ∧
        (transport req).next_page_token.isSome = true) →
      ∀ fuel, Alpaca.download_historical_news transport key secret dataDir fd td fuel =
        none) := by
  constructor
  · intro transport key secret dataDir fd td k fuel hfuel h200 hne htok hend
    obtain ⟨c, hc⟩ := alpaca_download_success transport key secret dataDir fd td k fuel
      hfuel h200 hne htok hend
    refine ⟨_, hc, ?_⟩
    simp [Nat.add_comm]
  · intro transport key secret dataDir fd td h fuel
    exact alpaca_download_infinite transport key secret dataDir fd td h fuel

/-- C4 counterexample: a server that returns a token on every page — every
response carries `some "t"` — for which the loop nevertheless terminates,
with an `IndexError`, because its pages are empty. -/
theorem C4_counterexample_token_every_page_terminates :
    transportEmptyTok = (fun _ => (⟨200, "", [], some "t"⟩ : Page)) ∧
    (⟨200, "", [], some "t"⟩ : Page).next_page_token = some "t" ∧
    Alpaca.download_historical_news transportEmptyTok "key" "secret" "data" dFrom dTo 1 =
      some ⟨[none, some "t"], [], .error .indexError⟩ :=
  ⟨rfl, rfl, by decide⟩

/-- Witness for the amended C4: part one at a concrete terminating chain,
part two at the concrete always-token server. -/
theorem C4_witness :
    (1 ≤ (1 : Nat)) ∧
    (∀ j, j ≤ 1 → (Alpaca.chainPage transport2 "key" "secret" dFrom dTo j).status = 200) ∧
    (∃ o : Alpaca.RunOutcome,
      Alpaca.download_historical_news transport2 "key" "secret" "data" dFrom dTo 1 = some o ∧
      o.requests.length = 2) ∧
    (∀ req : Request, (transportTok req).status = 200 ∧ (transportTok req).news ≠ [] ∧
      (transportTok req).next_page_token.isSome = true) ∧
    Alpaca.download_historical_news transportTok "key" "secret" "data" dFrom dTo 3 = none :=
  ⟨le_refl 1, by decide,
    C4_amended_termination.1 transport2 "key" "secret" "data" dFrom dTo 1 1
      (le_refl 1) (by decide) (by decide) (by decide) (by decide),
    fun req => ⟨rfl, by simp [transportTok], rfl⟩,
    C4_amended_termination.2 transportTok "key" "secret" "data" dFrom dTo
      (fun req => ⟨rfl, by simp [transportTok], rfl⟩) 3⟩
